import Mathlib

/-!
Verification of the relay session state machine and message-routing core of
the realtime voice relay server (`src/server.js`).

The source file contains two near-identical revisions of the server,
concatenated.  The second revision (the one that tracks an `isResponding`
flag, source lines 597-1158) is the authority for the routing claims; the
first revision (source lines 1-596) is the authority for the standalone
`attachment` handler (lines 418-503), which the second revision dropped,
and for the startup / shutdown code.

Modelling conventions:
- JavaScript truthiness of an optional string field is `truthy`.
- `a || b` on optional strings is `jsOr`.
- frames written to the upstream socket, notifications written to the client
  socket and registered `setTimeout` callbacks are collected in lists, in
  emission order; a `Timer` is fired later against the then-current state by
  `fireTimer`.
-/

namespace OpenaiWeb

/-- JavaScript truthiness of an optional string field: `undefined` and the
empty string are falsy, every other string is truthy. -/
def truthy : Option String → Bool
  | none => false
  | some s => s ≠ ""

/-- JavaScript `a || b` on optional string fields: yields `a` when `a` is
truthy, otherwise `b`. -/
def jsOr (a b : Option String) : Option String :=
  if truthy a then a else b

/-- JavaScript `o?.startsWith(p)` for an optional string `o` (an absent field
never starts with anything). -/
def optStartsWith (o : Option String) (p : String) : Bool :=
  match o with
  | some s => s.startsWith p
  | none => false

/-- One entry of the `files` array of a `text_message` client message
(fields read by the second-revision handler: `name`, `text`, `content`,
`url`). -/
structure FileRef where
  name : Option String := none
  text : Option String := none
  content : Option String := none
  url : Option String := none
deriving DecidableEq, Repr

/-- A parsed client JSON message: the `type` tag plus every field any
routing branch reads.  Absent fields are `none`. -/
structure ClientMessage where
  type : String
  text : Option String := none
  files : Option (List FileRef) := none
  data : Option String := none
  language : Option String := none
  url : Option String := none
  content : Option String := none
  filename : Option String := none
  base64 : Option String := none
  mimeType : Option String := none
deriving DecidableEq, Repr

/-- One content part of an upstream `conversation.item.create` frame. -/
inductive ContentPart
  | inputText (text : String)
  | inputImage (url : String)
  | inputAudio (url : String)
  | inputDocument (url : String)
deriving DecidableEq, Repr

/-- A frame written to the upstream (OpenAI) websocket by the routing code. -/
inductive UpstreamFrame
  | inputAudioBufferClear
  | conversationItemCreate (content : List ContentPart)
  | responseCreate
  | responseCreateGreeting
  | responseCancel
  | inputAudioBufferAppend (audio : String)
  | sessionUpdateLanguage (lang : String)
  | conversationClear
deriving DecidableEq, Repr

/-- A JSON notification written to the client websocket. -/
inductive Notification
  | connected
  | vadStart
  | vadStop
  | audioOut (data : String)
  | transcript (role : String) (text : String) (lang : String)
      (filesAttached : Option Nat)
  | muted (flag : Bool)
  | warning (msg : String)
  | error (msg : String)
  | languageSet (lang : String)
  | conversationCleared
  | attachmentReceived (filename : String)
deriving DecidableEq, Repr

/-- A `setTimeout` callback registered by a handler, fired later against the
then-current session state by `fireTimer`. -/
inductive Timer
  /-- second revision settle delay (200 ms) before `response.create`; the
  callback re-checks that the upstream socket is open and no response is in
  progress. -/
  | settleResponse
  /-- first revision settle delay (100 ms) before `response.create`; the
  callback is unguarded. -/
  | settleResponseV1
  /-- greeting trigger (500 ms) registered on `session.updated`; the
  callback only checks that the upstream socket is open. -/
  | greeting
deriving DecidableEq, Repr

/-- The per-connection mutable session state: the `isMuted`, `isReady`,
`isResponding` flags, the pending message queue, and whether the upstream
socket is open (`openaiWs.readyState === OPEN`). -/
structure SessionState where
  isMuted : Bool := false
  isReady : Bool := false
  isResponding : Bool := false
  messageQueue : List ClientMessage := []
  upstreamOpen : Bool := true
deriving DecidableEq, Repr

/-- The full effect of routing one client message: the updated session
state, the upstream frames sent, the client notifications sent, and the
timers registered, each in emission order. -/
structure RouteResult where
  state : SessionState
  upstream : List UpstreamFrame
  notifications : List Notification
  timers : List Timer
deriving DecidableEq, Repr

/-- The name under which a file's text is introduced in the composite text
(`file.name || 'File'`). -/
def fileNameOf (f : FileRef) : String :=
  (jsOr f.name (some "File")).getD "File"

/-- The text contributed by a file (`file.text || file.content || ''`). -/
def fileTextOf (f : FileRef) : String :=
  (jsOr (jsOr f.text f.content) (some "")).getD ""

/-- The delimiter line that introduces one file's content inside the
composite text of a `text_message`. -/
def fileDelimiter (f : FileRef) : String :=
  "\n\n[Content from " ++ fileNameOf f ++ "]:\n"

/-- What one entry of the `files` array appends to the composite text:
text-bearing files contribute their content behind a delimiter naming the
file, url-only files degrade to a textual placeholder, other files
contribute nothing. -/
def fileSegment (f : FileRef) : String :=
  if truthy (jsOr f.text f.content) then
    fileDelimiter f ++ fileTextOf f
  else if truthy f.url then
    "\n\n[Note: I cannot access the file at " ++ f.url.getD "" ++
      ". Please describe what\x27s in the file.]"
  else ""

/-- The composite text of a `text_message`: the loop
`fullText += segment(file)` over the `files` array, started from the
message text. -/
def compositeText (base : String) : List FileRef → String
  | [] => base
  | f :: rest => compositeText (base ++ fileSegment f) rest

/-- The `files` array as a list (`[]` when the field is absent), as iterated
by the composite-text loop. -/
def filesListOf (m : ClientMessage) : List FileRef :=
  match m.files with
  | some fs => fs
  | none => []

/-- The `files_attached` count echoed to the client
(`message.files ? message.files.length : 0`). -/
def filesAttachedCount (m : ClientMessage) : Nat :=
  match m.files with
  | some fs => fs.length
  | none => 0

/-- The second-revision `handleClientMessage` (source lines 920-1104): the
routing of one client message in emission order, including the early return
when the upstream socket is not open. -/
def handleClientMessage (m : ClientMessage) (s : SessionState) : RouteResult :=
  if s.upstreamOpen = false then ⟨s, [], [], []⟩
  else if m.type = "mute" then
    ⟨{ s with isMuted := true }, [], [.muted true], []⟩
  else if m.type = "unmute" then
    ⟨{ s with isMuted := false }, [], [.muted false], []⟩
  else if m.type = "text_message" ∧ truthy m.text = true then
    if s.isResponding = true then
      ⟨s, [], [.warning "Please wait for the current response to finish"], []⟩
    else
      ⟨s,
        [.inputAudioBufferClear,
         .conversationItemCreate
           [.inputText (compositeText (m.text.getD "") (filesListOf m))]],
        [.transcript "user" (m.text.getD "") "en" (some (filesAttachedCount m))],
        [.settleResponse]⟩
  else if m.type = "file_text" ∧ truthy m.text = true then
    if s.isResponding = true then ⟨s, [], [], []⟩
    else
      ⟨s,
        [.inputAudioBufferClear,
         .conversationItemCreate [.inputText (m.text.getD "")]],
        [],
        [.settleResponse]⟩
  else if m.type = "audio" ∧ truthy m.data = true ∧ s.isMuted = false then
    ⟨s, [.inputAudioBufferAppend (m.data.getD "")], [], []⟩
  else if m.type = "cancel" then
    if s.isResponding = true then ⟨s, [.responseCancel], [], []⟩
    else ⟨s, [], [], []⟩
  else if m.type = "set_language" ∧ truthy m.language = true then
    ⟨s, [.sessionUpdateLanguage (m.language.getD "")],
      [.languageSet (m.language.getD "")], []⟩
  else if m.type = "clear" then
    ⟨s, [.conversationClear], [.conversationCleared], []⟩
  else ⟨s, [], [], []⟩

/-- The content parts the first-revision `attachment` branch extracts from
the message (the `url` / `content`-or-`text` arms of its if-chain; the
`base64` arm extracts nothing and is handled by `handleAttachmentV1`). -/
def attachmentParts (m : ClientMessage) : List ContentPart :=
  if truthy m.url = true then
    if (m.type ≠ "" ∧ m.type.startsWith "image/") ∨
        optStartsWith m.mimeType "image/" = true then
      [.inputImage (m.url.getD "")]
    else if (m.type ≠ "" ∧ m.type.startsWith "audio/") ∨
        optStartsWith m.mimeType "audio/" = true then
      [.inputAudio (m.url.getD "")]
    else
      [.inputDocument (m.url.getD "")]
  else if truthy m.content = true ∨ truthy m.text = true then
    [.inputText
      ((jsOr m.filename (some "Attachment")).getD "Attachment" ++ ":\n" ++
        (jsOr (jsOr m.content m.text) (some "")).getD "")]
  else []

/-- The first-revision `attachment` branch of `handleClientMessage` (source
lines 418-503), reached for every message of type `attachment` whenever the
upstream socket is open (no earlier branch of that revision matches the
`attachment` tag).  Note the `input_audio_buffer.clear` frame is sent
before any content extraction. -/
def handleAttachmentV1 (m : ClientMessage) (s : SessionState) : RouteResult :=
  if s.upstreamOpen = false then ⟨s, [], [], []⟩
  else if truthy m.url = true ∨ truthy m.content = true ∨ truthy m.text = true then
    ⟨s,
      [.inputAudioBufferClear, .conversationItemCreate (attachmentParts m)],
      [.attachmentReceived ((jsOr m.filename (some "attachment")).getD "attachment")],
      [.settleResponseV1]⟩
  else if truthy m.base64 = true ∧
      ((m.type ≠ "" ∧ m.type.startsWith "image/") ∨
        optStartsWith m.mimeType "image/" = true) then
    ⟨s, [.inputAudioBufferClear],
      [.error "Please upload the image first using /upload endpoint"], []⟩
  else
    ⟨s, [.inputAudioBufferClear],
      [.error "Attachment has no valid content"], []⟩

/-- A parsed upstream event, classified by its `type` tag; `other` covers
every unrecognized tag. -/
inductive UpstreamEvent
  | sessionUpdated
  | speechStarted
  | speechStopped
  | audioDelta (delta : Option String)
  | responseCreated
  | responseDone
  | responseCancelled
  | inputTranscriptCompleted (transcript : String)
  | audioTranscriptDone (transcript : String)
  | errorEvent (errMessage : Option String)
  | other (tag : String)
deriving DecidableEq, Repr

/-- The cumulative effect of the queue-replay loop run on `session.updated`:
each queued message is passed to `handleClientMessage` once, front first,
threading the state; `delivered` records the messages handed to the routing
logic, in order. -/
structure ReplayResult where
  state : SessionState
  upstream : List UpstreamFrame
  notifications : List Notification
  timers : List Timer
  delivered : List ClientMessage
deriving DecidableEq, Repr

/-- The `while (messageQueue.length > 0)` replay loop of the
`session.updated` handler (source lines 805-809). -/
def replayQueue (s : SessionState) : List ClientMessage → ReplayResult
  | [] => ⟨s, [], [], [], []⟩
  | m :: rest =>
    let r := handleClientMessage m s
    let rr := replayQueue r.state rest
    ⟨rr.state, r.upstream ++ rr.upstream, r.notifications ++ rr.notifications,
      r.timers ++ rr.timers, m :: rr.delivered⟩

/-- The effect of one upstream event on the session: updated state, frames
sent upstream (only replay can send any), notifications sent to the client,
timers registered, client messages delivered to the routing logic, and
whether the handler closes the client socket. -/
structure UpstreamResult where
  state : SessionState
  upstream : List UpstreamFrame
  notifications : List Notification
  timers : List Timer
  delivered : List ClientMessage
  closesClient : Bool
deriving DecidableEq, Repr

/-- The second-revision `openaiWs.on('message')` handler (source lines
795-897): classify the upstream event and act.  On `session.updated` the
pending queue is drained through `handleClientMessage` in FIFO order and
the greeting timer is registered afterwards; an upstream `error` event is
relayed to the client (with `'Unknown error'` substituted for an absent or
empty message) and closes nothing. -/
def handleUpstreamEvent (e : UpstreamEvent) (s : SessionState) : UpstreamResult :=
  match e with
  | .sessionUpdated =>
    let q := s.messageQueue
    let rr := replayQueue { s with isReady := true, messageQueue := [] } q
    ⟨rr.state, rr.upstream, rr.notifications, rr.timers ++ [.greeting],
      rr.delivered, false⟩
  | .speechStarted => ⟨s, [], [.vadStart], [], [], false⟩
  | .speechStopped => ⟨s, [], [.vadStop], [], [], false⟩
  | .audioDelta d =>
    if truthy d = true then ⟨s, [], [.audioOut (d.getD "")], [], [], false⟩
    else ⟨s, [], [], [], [], false⟩
  | .responseCreated => ⟨{ s with isResponding := true }, [], [], [], [], false⟩
  | .responseDone => ⟨{ s with isResponding := false }, [], [], [], [], false⟩
  | .responseCancelled => ⟨{ s with isResponding := false }, [], [], [], [], false⟩
  | .inputTranscriptCompleted t =>
    ⟨s, [], [.transcript "user" t "en" none], [], [], false⟩
  | .audioTranscriptDone t =>
    ⟨s, [], [.transcript "assistant" t "en" none], [], [], false⟩
  | .errorEvent em =>
    ⟨{ s with isResponding := false }, [],
      [.error (if truthy em = true then em.getD "" else "Unknown error")],
      [], [], false⟩
  | .other _ => ⟨s, [], [], [], [], false⟩

/-- The second-revision `openaiWs.on('close')` handler (source lines
903-908): clear the ready and responding flags and close the client
socket. -/
def handleUpstreamClose (s : SessionState) : SessionState × Bool :=
  ({ s with isReady := false, isResponding := false, upstreamOpen := false }, true)

/-- The second-revision `clientSocket.on('message')` handler (source lines
1107-1127): a parsed client message is routed when the session is ready;
before readiness an `audio` message is dropped (buffered, not queued) and
every other message is appended to the pending queue. -/
def clientOnMessage (m : ClientMessage) (s : SessionState) : RouteResult :=
  if s.isReady = true then handleClientMessage m s
  else if m.type = "audio" then ⟨s, [], [], []⟩
  else ⟨{ s with messageQueue := s.messageQueue ++ [m] }, [], [], []⟩

/-- The session state after a sequence of client messages has arrived, each
through `clientOnMessage`. -/
def arriveAll (ms : List ClientMessage) (s : SessionState) : SessionState :=
  ms.foldl (fun st m => (clientOnMessage m st).state) s

/-- Firing a registered timer against the then-current session state: the
frames its callback sends upstream. -/
def fireTimer (t : Timer) (s : SessionState) : List UpstreamFrame :=
  match t with
  | .settleResponse =>
    if s.upstreamOpen = true ∧ s.isResponding = false then [.responseCreate]
    else []
  | .settleResponseV1 => [.responseCreate]
  | .greeting =>
    if s.upstreamOpen = true then [.responseCreateGreeting] else []

/-- What the process does at startup, as a function of the
`OPENAI_API_KEY` environment variable. -/
inductive StartupOutcome
  /-- the process called `process.exit(code)` before starting any server. -/
  | exited (code : Nat)
  /-- the HTTP and websocket servers were started. -/
  | listening
deriving DecidableEq, Repr

/-- The startup configuration check (source lines 12-15 / 608-611): a falsy
`OPENAI_API_KEY` aborts the process with exit code 1 before the server is
created; otherwise startup proceeds to listen. -/
def startup (apiKey : Option String) : StartupOutcome :=
  if truthy apiKey = false then .exited 1 else .listening

/-- The exit code passed to `process.exit` by the SIGINT handler (source
lines 591-596 / 1152-1157). -/
def sigintExitCode : Nat := 0

/-- Substring containment on strings, by explicit decomposition. -/
def isSubstr (p s : String) : Prop :=
  ∃ a b, s = a ++ p ++ b

/-- The concatenation of the segments the `files` loop appends, in order. -/
def segmentsJoin : List FileRef → String
  | [] => ""
  | f :: rest => fileSegment f ++ segmentsJoin rest

/-- The client message `{"type":"mute"}`. -/
def muteMsg : ClientMessage := { type := "mute" }

/-! ## Helper lemmas about the routing code -/

/-- No branch of the second-revision router touches the pending queue. -/
theorem handleClientMessage_queue (m : ClientMessage) (s : SessionState) :
    (handleClientMessage m s).state.messageQueue = s.messageQueue := by
  unfold handleClientMessage
  repeat' split
  all_goals rfl

/-- No branch of the second-revision router touches the ready flag. -/
theorem handleClientMessage_isReady (m : ClientMessage) (s : SessionState) :
    (handleClientMessage m s).state.isReady = s.isReady := by
  unfold handleClientMessage
  repeat' split
  all_goals rfl

/-- The only timer the second-revision router ever registers is the
response settle delay (in particular it never registers the greeting
timer). -/
theorem handleClientMessage_timers (m : ClientMessage) (s : SessionState) :
    ∀ t ∈ (handleClientMessage m s).timers, t = Timer.settleResponse := by
  unfold handleClientMessage
  repeat' split
  all_goals simp

/-- The replay loop hands exactly the queued messages to the routing logic,
front first. -/
theorem replayQueue_delivered (s : SessionState) (q : List ClientMessage) :
    (replayQueue s q).delivered = q := by
  induction q generalizing s with
  | nil => rfl
  | cons m rest ih => simp [replayQueue, ih]

/-- The replay loop leaves the pending queue field unchanged. -/
theorem replayQueue_queue (s : SessionState) (q : List ClientMessage) :
    (replayQueue s q).state.messageQueue = s.messageQueue := by
  induction q generalizing s with
  | nil => rfl
  | cons m rest ih => simp [replayQueue, ih, handleClientMessage_queue]

/-- The replay loop leaves the ready flag unchanged. -/
theorem replayQueue_isReady (s : SessionState) (q : List ClientMessage) :
    (replayQueue s q).state.isReady = s.isReady := by
  induction q generalizing s with
  | nil => rfl
  | cons m rest ih => simp [replayQueue, ih, handleClientMessage_isReady]

/-- Every timer registered during queue replay is a response settle delay. -/
theorem replayQueue_timers (s : SessionState) (q : List ClientMessage) :
    ∀ t ∈ (replayQueue s q).timers, t = Timer.settleResponse := by
  induction q generalizing s with
  | nil => simp [replayQueue]
  | cons m rest ih =>
    simp only [replayQueue, List.mem_append]
    intro t ht
    rcases ht with h | h
    · exact handleClientMessage_timers m s t h
    · exact ih _ t h

/-- Before readiness, a client message either is dropped (audio) or is
appended to the back of the pending queue; nothing else changes. -/
theorem clientOnMessage_not_ready (m : ClientMessage) (s : SessionState)
    (h : s.isReady = false) :
    (clientOnMessage m s).state =
      if m.type = "audio" then s
      else { s with messageQueue := s.messageQueue ++ [m] } := by
  unfold clientOnMessage
  simp only [h, Bool.false_eq_true, if_false]
  split <;> rfl

/-- While the session is not ready, the arrivals accumulate in the pending
queue in arrival order with the audio messages dropped, and the session
stays not ready. -/
theorem arriveAll_not_ready (ms : List ClientMessage) (s : SessionState)
    (h : s.isReady = false) :
    (arriveAll ms s).isReady = false ∧
    (arriveAll ms s).messageQueue =
      s.messageQueue ++ ms.filter (fun m => !(m.type == "audio")) := by
  induction ms generalizing s with
  | nil => simp [arriveAll, h]
  | cons m rest ih =>
    have hstep : (clientOnMessage m s).state =
        if m.type = "audio" then s
        else { s with messageQueue := s.messageQueue ++ [m] } :=
      clientOnMessage_not_ready m s h
    have harr : arriveAll (m :: rest) s
        = arriveAll rest (clientOnMessage m s).state := rfl
    rw [harr, hstep]
    by_cases hm : m.type = "audio"
    · simp only [if_pos hm]
      obtain ⟨h1, h2⟩ := ih s h
      refine ⟨h1, ?_⟩
      rw [h2]
      simp [List.filter_cons, hm]
    · simp only [if_neg hm]
      obtain ⟨h1, h2⟩ := ih { s with messageQueue := s.messageQueue ++ [m] } h
      refine ⟨h1, ?_⟩
      rw [h2]
      simp [List.filter_cons, hm]

/-- Unfolding the composite-text loop into the base text followed by the
concatenated file segments. -/
theorem compositeText_eq (base : String) (fs : List FileRef) :
    compositeText base fs = base ++ segmentsJoin fs := by
  induction fs generalizing base with
  | nil => simp [compositeText, segmentsJoin, String.append_empty]
  | cons f rest ih =>
    simp [compositeText, segmentsJoin, ih, String.append_assoc]

/-- Segment concatenation distributes over list append. -/
theorem segmentsJoin_append (xs ys : List FileRef) :
    segmentsJoin (xs ++ ys) = segmentsJoin xs ++ segmentsJoin ys := by
  induction xs with
  | nil => simp [segmentsJoin, String.empty_append]
  | cons f rest ih => simp [segmentsJoin, ih, String.append_assoc]

/-- Each listed file's segment occurs inside the composite text. -/
theorem substr_of_mem (base : String) (fs : List FileRef) (f : FileRef)
    (hf : f ∈ fs) : isSubstr (fileSegment f) (compositeText base fs) := by
  obtain ⟨l1, l2, rfl⟩ := List.append_of_mem hf
  refine ⟨base ++ segmentsJoin l1, segmentsJoin l2, ?_⟩
  rw [compositeText_eq, segmentsJoin_append]
  simp [segmentsJoin, String.append_assoc]

/-! ## Claim theorems -/

/-- C1 (counterexample): a well-formed `file_text` message routed while
`RESPONDING` is true is dropped with NO notification at all — in
particular it is not rejected with exactly one `warning`, contrary to the
claim.  (The `warning` is only sent on the `text_message` branch.) -/
theorem responding_gate_counterexample :
    (handleClientMessage { type := "file_text", text := some "hello" }
        { isReady := true, isResponding := true }).notifications = [] ∧
    ∀ w, Notification.warning w ∉
      (handleClientMessage { type := "file_text", text := some "hello" }
        { isReady := true, isResponding := true }).notifications := by
  refine ⟨rfl, fun w hw => ?_⟩
  exact List.not_mem_nil (Notification.warning w) hw

/-- C1 (amended): while `RESPONDING` is true, none of the
response-triggering actions is forwarded upstream or queued, and the state
is unchanged; but only `text_message` is rejected with exactly one
`warning` — `file_text` is dropped silently, and `attachment` is not a
recognized type of this revision and falls through silently. -/
theorem responding_gate (s : SessionState) (m : ClientMessage)
    (hOpen : s.upstreamOpen = true) (hResp : s.isResponding = true) :
    ((m.type = "text_message" ∧ truthy m.text = true) →
      handleClientMessage m s =
        ⟨s, [], [.warning "Please wait for the current response to finish"], []⟩) ∧
    ((m.type = "file_text" ∧ truthy m.text = true) →
      handleClientMessage m s = ⟨s, [], [], []⟩) ∧
    (m.type = "attachment" →
      handleClientMessage m s = ⟨s, [], [], []⟩) := by
  refine ⟨?_, ?_, ?_⟩
  · rintro ⟨h1, h2⟩
    unfold handleClientMessage
    simp [hOpen, hResp, h1, h2]
  · rintro ⟨h1, h2⟩
    unfold handleClientMessage
    simp [hOpen, hResp, h1, h2]
  · intro h1
    unfold handleClientMessage
    simp [hOpen, hResp, h1]

/-- C1 (witness): the amended gate theorem applied to a concrete responding
session and a concrete `text_message`. -/
theorem responding_gate_witness :
    (((({ type := "text_message", text := some "hi" } : ClientMessage).type
          = "text_message" ∧
        truthy ({ type := "text_message", text := some "hi" } : ClientMessage).text
          = true) →
      handleClientMessage { type := "text_message", text := some "hi" }
          { isReady := true, isResponding := true } =
        ⟨{ isReady := true, isResponding := true }, [],
          [.warning "Please wait for the current response to finish"], []⟩) ∧
    ((({ type := "text_message", text := some "hi" } : ClientMessage).type
          = "file_text" ∧
        truthy ({ type := "text_message", text := some "hi" } : ClientMessage).text
          = true) →
      handleClientMessage { type := "text_message", text := some "hi" }
          { isReady := true, isResponding := true } =
        ⟨{ isReady := true, isResponding := true }, [], [], []⟩) ∧
    ((({ type := "text_message", text := some "hi" } : ClientMessage).type
          = "attachment") →
      handleClientMessage { type := "text_message", text := some "hi" }
          { isReady := true, isResponding := true } =
        ⟨{ isReady := true, isResponding := true }, [], [], []⟩)) :=
  responding_gate { isReady := true, isResponding := true }
    { type := "text_message", text := some "hi" } rfl rfl

/-- C2: messages arriving before `READY` accumulate in the pending queue in
arrival order (audio frames are dropped, not queued); on the
`session.updated` transition each queued message is handed to the routing
logic exactly once, in FIFO order (the `delivered` trace equals the queue),
the queue is emptied, and the greeting trigger is registered strictly after
the replay (it is the sole greeting timer, placed last; its frame is only
sent when the timer later fires). -/
theorem queue_replay_fifo (arrivals : List ClientMessage) (s0 : SessionState)
    (h0 : s0.isReady = false) (hq : s0.messageQueue = []) :
    (arriveAll arrivals s0).messageQueue
        = arrivals.filter (fun m => !(m.type == "audio")) ∧
    (handleUpstreamEvent .sessionUpdated (arriveAll arrivals s0)).delivered
        = (arriveAll arrivals s0).messageQueue ∧
    (handleUpstreamEvent .sessionUpdated (arriveAll arrivals s0)).state.isReady
        = true ∧
    (handleUpstreamEvent .sessionUpdated (arriveAll arrivals s0)).state.messageQueue
        = [] ∧
    ∃ ts, (handleUpstreamEvent .sessionUpdated (arriveAll arrivals s0)).timers
        = ts ++ [Timer.greeting] ∧ Timer.greeting ∉ ts := by
  obtain ⟨hready, hqueue⟩ := arriveAll_not_ready arrivals s0 h0
  rw [hq] at hqueue
  simp only [List.nil_append] at hqueue
  refine ⟨hqueue, ?_, ?_, ?_, ?_⟩
  · simp [handleUpstreamEvent, replayQueue_delivered]
  · simp [handleUpstreamEvent, replayQueue_isReady]
  · simp [handleUpstreamEvent, replayQueue_queue]
  · refine ⟨(replayQueue
        { arriveAll arrivals s0 with isReady := true, messageQueue := [] }
        (arriveAll arrivals s0).messageQueue).timers, rfl, ?_⟩
    intro hmem
    have := replayQueue_timers _ _ Timer.greeting hmem
    simp at this

/-- C2 (witness): the FIFO replay theorem applied to a concrete arrival
sequence (a mute, an audio frame that is dropped, and a clear) against the
initial session state. -/
theorem queue_replay_fifo_witness :
    (arriveAll [{ type := "mute" }, { type := "audio", data := some "QUFB" },
        { type := "clear" }] {}).messageQueue
        = [{ type := "mute" }, { type := "audio", data := some "QUFB" },
            { type := "clear" }].filter (fun m => !(m.type == "audio")) ∧
    (handleUpstreamEvent .sessionUpdated
        (arriveAll [{ type := "mute" }, { type := "audio", data := some "QUFB" },
          { type := "clear" }] {})).delivered
        = (arriveAll [{ type := "mute" }, { type := "audio", data := some "QUFB" },
            { type := "clear" }] {}).messageQueue ∧
    (handleUpstreamEvent .sessionUpdated
        (arriveAll [{ type := "mute" }, { type := "audio", data := some "QUFB" },
          { type := "clear" }] {})).state.isReady = true ∧
    (handleUpstreamEvent .sessionUpdated
        (arriveAll [{ type := "mute" }, { type := "audio", data := some "QUFB" },
          { type := "clear" }] {})).state.messageQueue = [] ∧
    ∃ ts, (handleUpstreamEvent .sessionUpdated
        (arriveAll [{ type := "mute" }, { type := "audio", data := some "QUFB" },
          { type := "clear" }] {})).timers
        = ts ++ [Timer.greeting] ∧ Timer.greeting ∉ ts :=
  queue_replay_fifo
    [{ type := "mute" }, { type := "audio", data := some "QUFB" },
      { type := "clear" }] {} rfl rfl

/-- C3: a `text_message` carrying text-bearing files, routed while not
`RESPONDING`, sends exactly one upstream conversation-item-create (after
the audio-buffer clear) whose single text part is the composite text; the
composite text is the original message text followed by the file segments,
and each file's content occurs in it immediately behind its own delimiter
line naming that file; exactly one settle-delay timer is registered, whose
firing (state unchanged, still not responding) sends exactly one
`response.create`. -/
theorem text_message_roundtrip (s : SessionState) (m : ClientMessage)
    (fs : List FileRef)
    (hOpen : s.upstreamOpen = true) (hResp : s.isResponding = false)
    (hType : m.type = "text_message") (hText : truthy m.text = true)
    (hFiles : m.files = some fs)
    (hAll : ∀ f ∈ fs, truthy (jsOr f.text f.content) = true) :
    (handleClientMessage m s).upstream =
      [UpstreamFrame.inputAudioBufferClear,
       UpstreamFrame.conversationItemCreate
         [ContentPart.inputText (compositeText (m.text.getD "") fs)]] ∧
    compositeText (m.text.getD "") fs = m.text.getD "" ++ segmentsJoin fs ∧
    (∀ f ∈ fs, isSubstr (fileDelimiter f ++ fileTextOf f)
        (compositeText (m.text.getD "") fs)) ∧
    (handleClientMessage m s).timers = [Timer.settleResponse] ∧
    (handleClientMessage m s).state = s ∧
    fireTimer Timer.settleResponse (handleClientMessage m s).state =
      [UpstreamFrame.responseCreate] := by
  have hroute : handleClientMessage m s =
      ⟨s,
        [.inputAudioBufferClear,
         .conversationItemCreate
           [.inputText (compositeText (m.text.getD "") fs)]],
        [.transcript "user" (m.text.getD "") "en" (some (filesAttachedCount m))],
        [.settleResponse]⟩ := by
    unfold handleClientMessage
    simp [hOpen, hResp, hType, hText, filesListOf, hFiles]
  refine ⟨by rw [hroute], compositeText_eq _ _, ?_, by rw [hroute],
    by rw [hroute], ?_⟩
  · intro f hf
    have h1 := substr_of_mem (m.text.getD "") fs f hf
    have h2 : fileSegment f = fileDelimiter f ++ fileTextOf f := by
      simp [fileSegment, hAll f hf]
    rwa [h2] at h1
  · rw [hroute]
    simp [fireTimer, hOpen, hResp]

/-- C3 (witness): the round-trip theorem applied to a concrete
`text_message` with one attached text file in a concrete ready session. -/
theorem text_message_roundtrip_witness :
    (handleClientMessage
        { type := "text_message", text := some "hello",
          files := some [{ name := some "notes.txt", text := some "alpha" }] }
        { isReady := true }).upstream =
      [UpstreamFrame.inputAudioBufferClear,
       UpstreamFrame.conversationItemCreate
         [ContentPart.inputText (compositeText "hello"
            [{ name := some "notes.txt", text := some "alpha" }])]] ∧
    compositeText "hello" [{ name := some "notes.txt", text := some "alpha" }]
        = "hello" ++ segmentsJoin
            [{ name := some "notes.txt", text := some "alpha" }] ∧
    (∀ f ∈ ([{ name := some "notes.txt", text := some "alpha" }] : List FileRef),
      isSubstr (fileDelimiter f ++ fileTextOf f)
        (compositeText "hello"
          [{ name := some "notes.txt", text := some "alpha" }])) ∧
    (handleClientMessage
        { type := "text_message", text := some "hello",
          files := some [{ name := some "notes.txt", text := some "alpha" }] }
        { isReady := true }).timers = [Timer.settleResponse] ∧
    (handleClientMessage
        { type := "text_message", text := some "hello",
          files := some [{ name := some "notes.txt", text := some "alpha" }] }
        { isReady := true }).state = ({ isReady := true } : SessionState) ∧
    fireTimer Timer.settleResponse
      (handleClientMessage
        { type := "text_message", text := some "hello",
          files := some [{ name := some "notes.txt", text := some "alpha" }] }
        { isReady := true }).state = [UpstreamFrame.responseCreate] :=
  text_message_roundtrip { isReady := true }
    { type := "text_message", text := some "hello",
      files := some [{ name := some "notes.txt", text := some "alpha" }] }
    [{ name := some "notes.txt", text := some "alpha" }]
    rfl rfl rfl rfl rfl (by decide)

/-- C4 (counterexample): an `attachment` message with no extractable
content does reach the client with an error notification, but the claim
that no frame of any kind goes upstream is false: the
`input_audio_buffer.clear` frame was already sent before the content
check. -/
theorem attachment_no_content_counterexample :
    (handleAttachmentV1 { type := "attachment" } { isReady := true }).upstream
        = [UpstreamFrame.inputAudioBufferClear] ∧
    (handleAttachmentV1 { type := "attachment" } { isReady := true }).upstream
        ≠ [] ∧
    (handleAttachmentV1 { type := "attachment" } { isReady := true }).notifications
        = [Notification.error "Attachment has no valid content"] := by
  refine ⟨rfl, by decide, rfl⟩

/-- C4 (amended): for every `attachment` message with no extractable
content (no truthy `url`, `content` or `text`, and not the base64-image
path), the client receives exactly one `error` notification and the only
upstream frame sent for that message is the audio-buffer clear emitted
before content extraction — no conversation item and no response trigger
is sent, and the state is unchanged. -/
theorem attachment_no_content (s : SessionState) (m : ClientMessage)
    (_hT : m.type = "attachment") (hOpen : s.upstreamOpen = true)
    (hu : truthy m.url = false) (hc : truthy m.content = false)
    (ht : truthy m.text = false)
    (hb : ¬ (truthy m.base64 = true ∧
      ((m.type ≠ "" ∧ m.type.startsWith "image/") ∨
        optStartsWith m.mimeType "image/" = true))) :
    handleAttachmentV1 m s =
      ⟨s, [UpstreamFrame.inputAudioBufferClear],
        [Notification.error "Attachment has no valid content"], []⟩ := by
  unfold handleAttachmentV1
  simp [hOpen, hu, hc, ht, hb]

/-- C4 (witness): the amended theorem applied to a concrete contentless
attachment in a concrete ready session. -/
theorem attachment_no_content_witness :
    handleAttachmentV1 { type := "attachment" } { isReady := true } =
      ⟨{ isReady := true }, [UpstreamFrame.inputAudioBufferClear],
        [Notification.error "Attachment has no valid content"], []⟩ :=
  attachment_no_content { isReady := true } { type := "attachment" }
    rfl rfl rfl rfl rfl (by decide)

/-- C5 (counterexample): an upstream `error` event whose `error.message` is
the empty string is NOT relayed verbatim: the client receives
`Unknown error` instead of the carried message, contrary to the claim as
stated for every message string. -/
theorem upstream_error_relay_counterexample :
    (handleUpstreamEvent (.errorEvent (some "")) { isReady := true }).notifications
        = [Notification.error "Unknown error"] ∧
    Notification.error "" ∉
      (handleUpstreamEvent (.errorEvent (some ""))
        { isReady := true }).notifications := by
  refine ⟨rfl, by decide⟩

/-- C5 (amended): for every upstream `error` event carrying a nonempty
message string, the client receives exactly that message as an `error`
notification, nothing is sent upstream, the handler does not close the
client socket, and only the responding flag changes (the session keeps its
ready flag, open upstream socket and pending queue, so it continues to
process messages). -/
theorem upstream_error_relay (s : SessionState) (em : String)
    (hne : em ≠ "") :
    handleUpstreamEvent (.errorEvent (some em)) s =
      ⟨{ s with isResponding := false }, [], [Notification.error em],
        [], [], false⟩ := by
  unfold handleUpstreamEvent
  simp [truthy, hne]

/-- C5 (witness): the relay theorem applied to the spec's own scenario, an
upstream error event carrying `rate_limited`. -/
theorem upstream_error_relay_witness :
    handleUpstreamEvent (.errorEvent (some "rate_limited")) { isReady := true } =
      ⟨{ isReady := true, isResponding := false }, [],
        [Notification.error "rate_limited"], [], [], false⟩ :=
  upstream_error_relay { isReady := true } "rate_limited" (by decide)

/-- C6: an `audio` message handled while `muted = true` is a complete
silent drop through the full client-message entry point: no upstream
frame, no client notification, no timer, and the state (flags and queue)
unchanged — both before readiness (audio is never queued) and in the ready
routing path. -/
theorem audio_muted_silent_drop (s : SessionState) (m : ClientMessage)
    (hm : s.isMuted = true) (ht : m.type = "audio") :
    clientOnMessage m s = ⟨s, [], [], []⟩ := by
  unfold clientOnMessage handleClientMessage
  simp [ht, hm]

/-- C6 (witness): the silent-drop theorem applied to a concrete audio chunk
in a concrete muted ready session. -/
theorem audio_muted_silent_drop_witness :
    clientOnMessage { type := "audio", data := some "QUFBQQ==" }
        { isMuted := true, isReady := true } =
      ⟨{ isMuted := true, isReady := true }, [], [], []⟩ :=
  audio_muted_silent_drop { isMuted := true, isReady := true }
    { type := "audio", data := some "QUFBQQ==" } rfl rfl

/-- C7: a `cancel` message routed on an open upstream socket sends exactly
one `response.cancel` upstream when `RESPONDING` is true, and is a
complete no-op (no frame, no notification, no timer, no state change)
when `RESPONDING` is false. -/
theorem cancel_routing (s : SessionState) (m : ClientMessage)
    (hT : m.type = "cancel") (hOpen : s.upstreamOpen = true) :
    (s.isResponding = true →
      handleClientMessage m s = ⟨s, [UpstreamFrame.responseCancel], [], []⟩) ∧
    (s.isResponding = false →
      handleClientMessage m s = ⟨s, [], [], []⟩) := by
  constructor <;> intro hr <;> unfold handleClientMessage <;>
    simp [hT, hOpen, hr]

/-- C7 (witness): the cancel theorem applied to a concrete responding
session (first conjunct applies, the second holds vacuously). -/
theorem cancel_routing_witness :
    (({ isReady := true, isResponding := true } : SessionState).isResponding
        = true →
      handleClientMessage { type := "cancel" }
          { isReady := true, isResponding := true } =
        ⟨{ isReady := true, isResponding := true },
          [UpstreamFrame.responseCancel], [], []⟩) ∧
    (({ isReady := true, isResponding := true } : SessionState).isResponding
        = false →
      handleClientMessage { type := "cancel" }
          { isReady := true, isResponding := true } =
        ⟨{ isReady := true, isResponding := true }, [], [], []⟩) :=
  cancel_routing { isReady := true, isResponding := true }
    { type := "cancel" } rfl rfl

/-- C8: routing `mute` twice in a row leaves `muted = true`, is idempotent
on the session state (the second call does not change it further),
produces exactly the two `muted` notifications in order, and produces no
`error` notification. -/
theorem mute_idempotent (s : SessionState) (hOpen : s.upstreamOpen = true) :
    (handleClientMessage muteMsg
        (handleClientMessage muteMsg s).state).state.isMuted = true ∧
    (handleClientMessage muteMsg (handleClientMessage muteMsg s).state).state
        = (handleClientMessage muteMsg s).state ∧
    (handleClientMessage muteMsg s).notifications ++
      (handleClientMessage muteMsg
        (handleClientMessage muteMsg s).state).notifications
        = [Notification.muted true, Notification.muted true] ∧
    ∀ msg, Notification.error msg ∉
      (handleClientMessage muteMsg s).notifications ++
        (handleClientMessage muteMsg
          (handleClientMessage muteMsg s).state).notifications := by
  unfold handleClientMessage muteMsg
  simp [hOpen]

/-- C8 (witness): the idempotence theorem applied to a concrete ready
session. -/
theorem mute_idempotent_witness :
    (handleClientMessage muteMsg
        (handleClientMessage muteMsg { isReady := true }).state).state.isMuted
        = true ∧
    (handleClientMessage muteMsg
        (handleClientMessage muteMsg { isReady := true }).state).state
        = (handleClientMessage muteMsg { isReady := true }).state ∧
    (handleClientMessage muteMsg { isReady := true }).notifications ++
      (handleClientMessage muteMsg
        (handleClientMessage muteMsg { isReady := true }).state).notifications
        = [Notification.muted true, Notification.muted true] ∧
    ∀ msg, Notification.error msg ∉
      (handleClientMessage muteMsg { isReady := true }).notifications ++
        (handleClientMessage muteMsg
          (handleClientMessage muteMsg { isReady := true }).state).notifications :=
  mute_idempotent { isReady := true } rfl

/-- C9: a falsy `OPENAI_API_KEY` at startup makes the process exit with
code 1 before any server is created, and the SIGINT handler exits the
process with code 0. -/
theorem startup_exit_codes :
    startup none = StartupOutcome.exited 1 ∧ sigintExitCode = 0 :=
  ⟨rfl, rfl⟩

/-- C10: a client message whose `type` is none of the eight recognized
types, handled while the session is `READY`, is a silent no-op: no
upstream frame, no client notification, no timer, and the state (flags and
queue) unchanged. -/
theorem unrecognized_type_noop (s : SessionState) (m : ClientMessage)
    (hReady : s.isReady = true)
    (h : m.type ∉ ["mute", "unmute", "text_message", "file_text", "audio",
      "cancel", "set_language", "clear"]) :
    clientOnMessage m s = ⟨s, [], [], []⟩ := by
  simp only [List.mem_cons, List.mem_singleton, not_or] at h
  obtain ⟨h1, h2, h3, h4, h5, h6, h7, h8⟩ := h
  unfold clientOnMessage handleClientMessage
  simp [hReady, h1, h2, h3, h4, h5, h6, h7, h8]

/-- C10 (witness): the no-op theorem applied to a concrete message of type
`attachment` — a type the second revision no longer recognizes — in a
concrete ready session. -/
theorem unrecognized_type_noop_witness :
    clientOnMessage { type := "attachment", text := some "x" }
        { isReady := true } =
      ⟨{ isReady := true }, [], [], []⟩ :=
  unrecognized_type_noop { isReady := true }
    { type := "attachment", text := some "x" } rfl (by decide)

end OpenaiWeb
